import Mathlib

/-!
Shallow embedding of the ledger computation engine of the group-treasurer
application (store module): the entry log and registries, the as-of filter
driven by the working date, the balance aggregator, the loan evaluator, the
member statistics, and the mutation operations of the ledger facade
(contribution allocation, loan issuance, repayment, expense, transfer,
account deletion).

Modelling conventions: monetary amounts are exact rationals standing for the
JavaScript numbers of the source; calendar dates are naturals (the source
compares ISO date strings lexicographically, which agrees with chronological
order); identities are naturals drawn from a freshness counter standing for
the source's uuids. Each mutation returns the optional failure message of the
source together with the post state; operations whose source returns void
always return no message.
-/

namespace Ledger

inductive AccountType where
  | CASH
  | MOBILE
  | BANK
  | MEMBER
  deriving DecidableEq, Repr

inductive FundType where
  | PRINCIPAL
  | INTEREST
  deriving DecidableEq, Repr

inductive TransactionType where
  | CONTRIBUTION
  | LOAN_GIVEN
  | LOAN_REPAYMENT
  | EXPENSE
  | TRANSFER
  | OPENING_BALANCE
  deriving DecidableEq, Repr

inductive LoanStatus where
  | PAID
  | OVERDUE
  | UNPAID
  deriving DecidableEq, Repr

/-- Member record: `advance_credit` is the carried credit. -/
structure Member where
  id : Nat
  name : String
  active : Bool
  advance_credit : ℚ
  deriving DecidableEq, Repr

structure Account where
  id : Nat
  account_name : String
  type : AccountType
  active : Bool
  memberId : Option Nat
  deriving DecidableEq, Repr

/-- Ledger entry (transaction) record, fields as in the source interface. -/
structure Transaction where
  id : Nat
  date : Nat
  memberId : Option Nat
  accountId : Nat
  fund_type : FundType
  transaction_type : TransactionType
  amount : ℚ
  related_loan_id : Option Nat
  notes : String
  deriving DecidableEq, Repr

structure Loan where
  id : Nat
  memberId : Nat
  amount_given : ℚ
  interest_rate : ℚ
  date_given : Nat
  due_date : Nat
  deriving DecidableEq, Repr

/-- In-memory state of the store provider: the registries, the entry log,
the working date, and a freshness counter standing for uuid generation. -/
structure Store where
  members : List Member
  accounts : List Account
  transactions : List Transaction
  loans : List Loan
  workingDate : Nat
  nextId : Nat
  deriving DecidableEq, Repr

/-- As-of filter: true iff the record date is on or before the working date
(the source compares ISO strings lexicographically). -/
def isBeforeOrOnWorkingDate (s : Store) (date : Nat) : Bool :=
  decide (date ≤ s.workingDate)

structure AccountBalance where
  principal : ℚ
  interest : ℚ
  total : ℚ
  deriving DecidableEq, Repr

/-- Balance aggregator: folds the as-of-filtered entries of one account,
summing amounts separately per fund pool. -/
def getAccountBalance (s : Store) (accountId : Nat) : AccountBalance :=
  let accTrans := s.transactions.filter fun t =>
    decide (t.accountId = accountId) && isBeforeOrOnWorkingDate s t.date
  let principal :=
    ((accTrans.filter fun t => decide (t.fund_type = FundType.PRINCIPAL)).map
      (fun t => t.amount)).sum
  let interest :=
    ((accTrans.filter fun t => decide (t.fund_type = FundType.INTEREST)).map
      (fun t => t.amount)).sum
  ⟨principal, interest, principal + interest⟩

structure LoanDetails where
  interestAmount : ℚ
  totalDue : ℚ
  amountPaid : ℚ
  balance : ℚ
  status : LoanStatus
  deriving DecidableEq, Repr

/-- Loan evaluator: flat interest, as-of-filtered repayments, derived status. -/
def getLoanDetails (s : Store) (loan : Loan) : LoanDetails :=
  let interestAmount := loan.amount_given * (loan.interest_rate / 100)
  let totalDue := loan.amount_given + interestAmount
  let amountPaid :=
    ((s.transactions.filter fun t =>
        decide (t.related_loan_id = some loan.id) &&
        decide (t.transaction_type = TransactionType.LOAN_REPAYMENT) &&
        isBeforeOrOnWorkingDate s t.date).map (fun t => t.amount)).sum
  let balance := totalDue - amountPaid
  let status : LoanStatus :=
    if balance ≤ 0 then LoanStatus.PAID
    else if s.workingDate > loan.due_date then LoanStatus.OVERDUE
    else LoanStatus.UNPAID
  ⟨interestAmount, totalDue, amountPaid, balance, status⟩

structure MemberStats where
  totalContributed : ℚ
  activeLoans : Nat
  totalLoanBalance : ℚ
  lastContributionDate : Option Nat
  fundsHeld : ℚ
  deriving DecidableEq, Repr

/-- Member statistics: as-of-filtered contributions, loans given on or before
the working date with non-PAID status, and funds held on MEMBER accounts. -/
def getMemberStats (s : Store) (memberId : Nat) : MemberStats :=
  let memberTransactions := s.transactions.filter fun t =>
    decide (t.memberId = some memberId) && isBeforeOrOnWorkingDate s t.date
  let totalContributed :=
    ((memberTransactions.filter fun t =>
        decide (t.transaction_type = TransactionType.CONTRIBUTION)).map
      (fun t => t.amount)).sum
  let contributions :=
    (memberTransactions.filter fun t =>
        decide (t.transaction_type = TransactionType.CONTRIBUTION)).mergeSort
      fun a b => decide (b.date ≤ a.date)
  let lastContributionDate := contributions.head?.map fun t => t.date
  let memberLoans := s.loans.filter fun l =>
    decide (l.memberId = memberId) && isBeforeOrOnWorkingDate s l.date_given
  let counted := memberLoans.foldl
    (fun (acc : Nat × ℚ) l =>
      let details := getLoanDetails s l
      if details.status ≠ LoanStatus.PAID then (acc.1 + 1, acc.2 + details.balance)
      else acc)
    (0, 0)
  let memberAccounts := s.accounts.filter fun a =>
    decide (a.memberId = some memberId) && decide (a.type = AccountType.MEMBER)
  let fundsHeld := memberAccounts.foldl
    (fun (acc : ℚ) a => acc + (getAccountBalance s a.id).total) 0
  ⟨totalContributed, counted.1, counted.2, lastContributionDate, fundsHeld⟩

/-- Account deletion: refused unless the signed sum of all of the account's
entries (over all dates) is within the 0.01 epsilon tolerance. -/
def deleteAccount (s : Store) (id : Nat) : Option String × Store :=
  let accTrans := s.transactions.filter fun t => decide (t.accountId = id)
  let totalBalance := (accTrans.map fun t => t.amount).sum
  if |totalBalance| > (1 / 100 : ℚ) then
    (some "Cannot delete account. It has a remaining balance.", s)
  else
    (none, { s with accounts := s.accounts.filter fun a => decide (a.id ≠ id) })

/-- Auto-repayment loop of the contribution allocator, embedding the source's
for-loop: entries are generated for the given loans in list order while the
remaining extra is positive, each of amount `min remaining balance` and only
when that amount is positive. Returns the entries, the leftover extra, and
the next fresh id. -/
def repayLoop (memberId accountId date : Nat) :
    ℚ → Nat → List (Loan × LoanDetails) → List Transaction × ℚ × Nat
  | remaining, nid, [] => ([], remaining, nid)
  | remaining, nid, (loan, details) :: rest =>
    if remaining ≤ 0 then ([], remaining, nid)
    else
      let repaymentAmount := min remaining details.balance
      if repaymentAmount > 0 then
        let t : Transaction :=
          ⟨nid, date, some memberId, accountId, FundType.PRINCIPAL,
            TransactionType.LOAN_REPAYMENT, repaymentAmount, some loan.id,
            "Auto-repayment from extra contribution"⟩
        let r := repayLoop memberId accountId date
          (remaining - repaymentAmount) (nid + 1) rest
        (t :: r.1, r.2)
      else repayLoop memberId accountId date remaining nid rest

/-- Embedded from the allocator's first step: the sum of the member's
CONTRIBUTION entries dated exactly the given date (the working date plays no
role here). -/
def existingContributionAmountOnDate (s : Store) (memberId date : Nat) : ℚ :=
  ((s.transactions.filter fun t =>
      decide (t.memberId = some memberId) && decide (t.date = date) &&
      decide (t.transaction_type = TransactionType.CONTRIBUTION)).map
    (fun t => t.amount)).sum

/-- Embedded from the allocator's unpaidLoans computation: the member's loans
paired with their evaluator results at the current working date, those with
PAID status dropped, sorted ascending by issue date (stable sort standing for
the source's stable comparator sort). -/
def unpaidLoansSorted (s : Store) (memberId : Nat) : List (Loan × LoanDetails) :=
  (((s.loans.filter fun l => decide (l.memberId = memberId)).map
      fun l => (l, getLoanDetails s l)).filter
    fun p => decide (p.2.status ≠ LoanStatus.PAID)).mergeSort
    fun a b => decide (a.1.date_given ≤ b.1.date_given)

/-- Contribution allocator: daily-share split, auto-repayment of unpaid loans
oldest first, and wholesale replacement of the member's carried credit. -/
def addContribution (s : Store) (memberId : Nat) (amount : ℚ) (accountId date : Nat)
    (notes : String) : Option String × Store :=
  match s.members.find? (fun m => decide (m.id = memberId)) with
  | none => (some "Member not found", s)
  | some member =>
    let remainingShareCapacity :=
      max 0 (1000 - existingContributionAmountOnDate s memberId date)
    let totalPool := amount + member.advance_credit
    let share := min remainingShareCapacity totalPool
    let extra := totalPool - share
    let contribEntries : List Transaction :=
      if share > 0 then
        [⟨s.nextId, date, some memberId, accountId, FundType.PRINCIPAL,
          TransactionType.CONTRIBUTION, share, none,
          if notes = "" then "Daily Share" else notes⟩]
      else []
    let nid1 := if share > 0 then s.nextId + 1 else s.nextId
    let alloc :=
      if extra > 0 then
        repayLoop memberId accountId date extra nid1 (unpaidLoansSorted s memberId)
      else ([], 0, nid1)
    let updatedMembers := s.members.map fun m =>
      if m.id = memberId then { m with advance_credit := alloc.2.1 } else m
    (none,
      { s with
        transactions := s.transactions ++ contribEntries ++ alloc.1,
        members := updatedMembers,
        nextId := alloc.2.2 })

/-- Loan issuance: checks the source account's as-of balance, then the
single-outstanding-loan rule, then creates the loan (due 30 days after issue)
and the negative LOAN_GIVEN entry. -/
def addLoan (s : Store) (memberId : Nat) (amount : ℚ) (accountId date : Nat)
    (interestRate : ℚ) : Option String × Store :=
  let balance := getAccountBalance s accountId
  if balance.total < amount then (some "Insufficient funds in account", s)
  else
    let memberLoans := s.loans.filter fun l => decide (l.memberId = memberId)
    let hasActiveLoan := memberLoans.any fun l =>
      decide ((getLoanDetails s l).status ≠ LoanStatus.PAID)
    if hasActiveLoan then
      (some "Member already has an outstanding loan. Please repay it first.", s)
    else
      let loanId := s.nextId
      let transId := s.nextId + 1
      let newLoan : Loan := ⟨loanId, memberId, amount, interestRate, date, date + 30⟩
      let newTrans : Transaction :=
        ⟨transId, date, some memberId, accountId, FundType.PRINCIPAL,
          TransactionType.LOAN_GIVEN, -amount, none, "Loan given to member"⟩
      (none,
        { s with
          loans := s.loans ++ [newLoan],
          transactions := s.transactions ++ [newTrans],
          nextId := s.nextId + 2 })

/-- Direct repayment: the source function returns void, so no failure message
is ever produced; a missing loan is a silent no-op, and the entry amount is
taken from the caller unchecked. -/
def addRepayment (s : Store) (loanId : Nat) (amount : ℚ) (accountId date : Nat)
    (notes : String) : Option String × Store :=
  match s.loans.find? (fun l => decide (l.id = loanId)) with
  | none => (none, s)
  | some loan =>
    let t : Transaction :=
      ⟨s.nextId, date, some loan.memberId, accountId, FundType.PRINCIPAL,
        TransactionType.LOAN_REPAYMENT, amount, some loanId,
        if notes = "" then "Direct repayment" else notes⟩
    (none, { s with transactions := s.transactions ++ [t], nextId := s.nextId + 1 })

/-- Expense against the shared interest pool. -/
def addExpense (s : Store) (amount : ℚ) (accountId date : Nat)
    (notes : String) : Option String × Store :=
  let allInterestIncoming :=
    ((s.transactions.filter fun t =>
        decide (t.fund_type = FundType.INTEREST) && decide (t.amount > 0) &&
        isBeforeOrOnWorkingDate s t.date).map (fun t => t.amount)).sum
  let allInterestOutgoing :=
    ((s.transactions.filter fun t =>
        decide (t.transaction_type = TransactionType.EXPENSE) &&
        decide (t.fund_type = FundType.INTEREST) &&
        isBeforeOrOnWorkingDate s t.date).map (fun t => t.amount)).sum
  let availableInterest := allInterestIncoming - allInterestOutgoing
  if availableInterest < amount then
    (some "Insufficient interest funds", s)
  else
    let t : Transaction :=
      ⟨s.nextId, date, none, accountId, FundType.INTEREST,
        TransactionType.EXPENSE, -amount, none, notes⟩
    (none, { s with transactions := s.transactions ++ [t], nextId := s.nextId + 1 })

/-- Account-name lookup used only for the informational transfer notes. -/
def accountNameOf (s : Store) (id : Nat) : String :=
  match s.accounts.find? (fun a => decide (a.id = id)) with
  | some a => a.account_name
  | none => "undefined"

/-- Paired transfer write: two TRANSFER entries of opposite sign, same fund
pool and date. The source function returns void. -/
def addTransfer (s : Store) (fromAccountId toAccountId : Nat) (amount : ℚ)
    (fundType : FundType) (date : Nat) (notes : String) : Store :=
  let trans1 : Transaction :=
    ⟨s.nextId, date, none, fromAccountId, fundType, TransactionType.TRANSFER,
      -amount, none, "Transfer to " ++ accountNameOf s toAccountId ++ ": " ++ notes⟩
  let trans2 : Transaction :=
    ⟨s.nextId + 1, date, none, toAccountId, fundType, TransactionType.TRANSFER,
      amount, none, "Transfer from " ++ accountNameOf s fromAccountId ++ ": " ++ notes⟩
  { s with transactions := s.transactions ++ [trans1, trans2], nextId := s.nextId + 2 }

/-- Waterfall repayment written after the specification's words: for each
given loan in order, while the extra is positive, one repayment entry of
amount `min extra balance` is emitted and the extra decremented, the final
extra being returned as the leftover. Stated-side counterpart of `repayLoop`
for the refinement theorems. -/
def waterfallSpec (memberId accountId date : Nat) :
    ℚ → Nat → List (Loan × LoanDetails) → List Transaction × ℚ × Nat
  | extra, nid, [] => ([], extra, nid)
  | extra, nid, (loan, details) :: rest =>
    if extra > 0 then
      let amt := min extra details.balance
      let t : Transaction :=
        ⟨nid, date, some memberId, accountId, FundType.PRINCIPAL,
          TransactionType.LOAN_REPAYMENT, amt, some loan.id,
          "Auto-repayment from extra contribution"⟩
      let r := waterfallSpec memberId accountId date (extra - amt) (nid + 1) rest
      (t :: r.1, r.2)
    else ([], extra, nid)

/-! Helper lemmas shared by the claim theorems. -/

/-- Unpaid loans with positive balance: a non-PAID status forces a positive
balance, since the evaluator assigns PAID exactly when the balance is ≤ 0. -/
theorem balance_pos_of_not_paid (s : Store) (l : Loan)
    (h : (getLoanDetails s l).status ≠ LoanStatus.PAID) :
    0 < (getLoanDetails s l).balance := by
  by_contra hb
  push_neg at hb
  apply h
  unfold getLoanDetails at hb ⊢
  simp only at hb ⊢
  rw [if_pos hb]

/-- Every entry produced by the auto-repayment loop is a LOAN_REPAYMENT
referencing one of the listed loans, with amount at most that loan's listed
balance. -/
theorem repayLoop_mem (memberId accountId date : Nat) :
    ∀ (L : List (Loan × LoanDetails)) (remaining : ℚ) (nid : Nat)
      (t : Transaction), t ∈ (repayLoop memberId accountId date remaining nid L).1 →
      ∃ p ∈ L, t.related_loan_id = some p.1.id ∧ t.amount ≤ p.2.balance ∧
        t.transaction_type = TransactionType.LOAN_REPAYMENT := by
  intro L
  induction L with
  | nil => intro remaining nid t ht; simp [repayLoop] at ht
  | cons p rest ih =>
    intro remaining nid t ht
    obtain ⟨loan, details⟩ := p
    by_cases hr : remaining ≤ 0
    · simp [repayLoop, hr] at ht
    · by_cases ha : min remaining details.balance > 0
      · simp only [repayLoop, if_neg hr, if_pos ha, List.mem_cons] at ht
        rcases ht with rfl | ht
        · exact ⟨(loan, details), List.mem_cons_self _ _,
            rfl, min_le_right _ _, rfl⟩
        · obtain ⟨q, hq, hrest⟩ := ih _ _ t ht
          exact ⟨q, List.mem_cons_of_mem _ hq, hrest⟩
      · simp only [repayLoop, if_neg hr, if_neg ha] at ht
        obtain ⟨q, hq, hrest⟩ := ih _ _ t ht
        exact ⟨q, List.mem_cons_of_mem _ hq, hrest⟩

/-- Every pair selected by the allocator's unpaid-loan pipeline comes from the
loan registry, carries its evaluator result, and is not PAID. -/
theorem unpaid_pipeline_mem (s : Store) (memberId : Nat) (p : Loan × LoanDetails)
    (hp : p ∈ unpaidLoansSorted s memberId) :
    p.1 ∈ s.loans ∧ p.2 = getLoanDetails s p.1 ∧ p.2.status ≠ LoanStatus.PAID := by
  rw [unpaidLoansSorted, List.mem_mergeSort, List.mem_filter] at hp
  obtain ⟨hmem, hstat⟩ := hp
  rw [List.mem_map] at hmem
  obtain ⟨l, hl, rfl⟩ := hmem
  exact ⟨(List.mem_filter.mp hl).1, rfl, by simpa using hstat⟩

/-- Positive balances all along the allocator's unpaid-loan pipeline. -/
theorem unpaid_pipeline_balance_pos (s : Store) (memberId : Nat) :
    ∀ p ∈ unpaidLoansSorted s memberId, 0 < p.2.balance := by
  intro p hp
  obtain ⟨_, hdet, hstat⟩ := unpaid_pipeline_mem s memberId p hp
  rw [hdet] at hstat ⊢
  exact balance_pos_of_not_paid s p.1 hstat

/-- Characterization of the contribution allocator on a registered member,
obtained by unfolding the source translation once; the allocation quantities
are bound through defining equations. -/
theorem addContribution_eq (s : Store) (memberId : Nat) (amount : ℚ)
    (accountId date : Nat) (notes : String) (member : Member)
    (share extra : ℚ) (nid1 : Nat)
    (hm : s.members.find? (fun m => decide (m.id = memberId)) = some member)
    (hshare : share = min (max 0 (1000 - existingContributionAmountOnDate s memberId date))
      (amount + member.advance_credit))
    (hextra : extra = (amount + member.advance_credit) - share)
    (hnid1 : nid1 = if share > 0 then s.nextId + 1 else s.nextId) :
    addContribution s memberId amount accountId date notes =
      (none,
        { s with
          transactions := s.transactions ++
            (if share > 0 then
              [⟨s.nextId, date, some memberId, accountId, FundType.PRINCIPAL,
                TransactionType.CONTRIBUTION, share, none,
                if notes = "" then "Daily Share" else notes⟩]
            else []) ++
            (if extra > 0 then
              repayLoop memberId accountId date extra nid1 (unpaidLoansSorted s memberId)
            else ([], 0, nid1)).1,
          members := s.members.map fun m =>
            if m.id = memberId then
              { m with advance_credit :=
                  (if extra > 0 then
                    repayLoop memberId accountId date extra nid1 (unpaidLoansSorted s memberId)
                  else ([], 0, nid1)).2.1 }
            else m,
          nextId :=
            (if extra > 0 then
              repayLoop memberId accountId date extra nid1 (unpaidLoansSorted s memberId)
            else ([], 0, nid1)).2.2 }) := by
  subst hshare
  subst hextra
  subst hnid1
  unfold addContribution
  rw [hm]

/-- C3: for every loan and working date, the loan evaluator returns flat
interest `principal × rate/100`, totalDue = principal + interest, amountPaid
equal to the sum of as-of-filtered LOAN_REPAYMENT entries referencing the
loan, balance = totalDue − amountPaid, and status PAID when balance ≤ 0,
else OVERDUE when the working date exceeds the due date, else UNPAID. -/
theorem getLoanDetails_spec (s : Store) (loan : Loan) :
    (getLoanDetails s loan).interestAmount =
        loan.amount_given * (loan.interest_rate / 100) ∧
    (getLoanDetails s loan).totalDue =
        loan.amount_given + (getLoanDetails s loan).interestAmount ∧
    (getLoanDetails s loan).amountPaid =
        ((s.transactions.filter fun t =>
            decide (t.related_loan_id = some loan.id) &&
            decide (t.transaction_type = TransactionType.LOAN_REPAYMENT) &&
            decide (t.date ≤ s.workingDate)).map (fun t => t.amount)).sum ∧
    (getLoanDetails s loan).balance =
        (getLoanDetails s loan).totalDue - (getLoanDetails s loan).amountPaid ∧
    (getLoanDetails s loan).status =
        (if (getLoanDetails s loan).balance ≤ 0 then LoanStatus.PAID
         else if s.workingDate > loan.due_date then LoanStatus.OVERDUE
         else LoanStatus.UNPAID) :=
  ⟨rfl, rfl, rfl, rfl, rfl⟩

/-- C9: account deletion succeeds, removing exactly the account, iff the
absolute value of the signed sum of all of the account's entries (over all
dates) is within the 0.01 tolerance; otherwise it returns a failure message
and leaves the state unchanged. -/
theorem deleteAccount_spec (s : Store) (id : Nat) :
    if |((s.transactions.filter fun t => decide (t.accountId = id)).map
        fun t => t.amount).sum| ≤ (1 / 100 : ℚ) then
      deleteAccount s id =
        (none, { s with accounts := s.accounts.filter fun a => decide (a.id ≠ id) })
    else
      deleteAccount s id =
        (some "Cannot delete account. It has a remaining balance.", s) := by
  split_ifs with h
  · unfold deleteAccount
    rw [if_neg (not_lt.mpr h)]
  · unfold deleteAccount
    rw [if_pos (not_le.mp h)]

/-- C6: recording an expense fails, appending nothing, iff availableInterest
(the as-of-filtered sum of positive INTEREST entries minus the as-of-filtered
signed sum of EXPENSE/INTEREST entries) is less than the amount; on success it
appends exactly one EXPENSE/INTEREST entry of the negated amount. -/
theorem addExpense_spec (s : Store) (amount : ℚ) (accountId date : Nat)
    (notes : String) :
    if ((s.transactions.filter fun t =>
          decide (t.fund_type = FundType.INTEREST) && decide (t.amount > 0) &&
          decide (t.date ≤ s.workingDate)).map (fun t => t.amount)).sum -
        ((s.transactions.filter fun t =>
          decide (t.transaction_type = TransactionType.EXPENSE) &&
          decide (t.fund_type = FundType.INTEREST) &&
          decide (t.date ≤ s.workingDate)).map (fun t => t.amount)).sum < amount then
      addExpense s amount accountId date notes = (some "Insufficient interest funds", s)
    else
      addExpense s amount accountId date notes =
        (none,
          { s with
            transactions := s.transactions ++
              [⟨s.nextId, date, none, accountId, FundType.INTEREST,
                TransactionType.EXPENSE, -amount, none, notes⟩],
            nextId := s.nextId + 1 }) := by
  split_ifs with h
  · unfold addExpense
    simp only [isBeforeOrOnWorkingDate]
    rw [if_pos h]
  · unfold addExpense
    simp only [isBeforeOrOnWorkingDate]
    rw [if_neg h]

/-- C5: loan issuance fails with the insufficient-funds message when the
source account's as-of balance total is below the principal, otherwise with
the outstanding-loan message when some loan of the member is not PAID, in
both cases changing nothing; otherwise it creates one loan due 30 days after
the issue date and appends one LOAN_GIVEN/PRINCIPAL entry of the negated
principal on the source account. -/
theorem addLoan_spec (s : Store) (memberId : Nat) (amount : ℚ)
    (accountId date : Nat) (interestRate : ℚ) :
    if (getAccountBalance s accountId).total < amount then
      addLoan s memberId amount accountId date interestRate =
        (some "Insufficient funds in account", s)
    else if (s.loans.filter fun l => decide (l.memberId = memberId)).any
        (fun l => decide ((getLoanDetails s l).status ≠ LoanStatus.PAID)) then
      addLoan s memberId amount accountId date interestRate =
        (some "Member already has an outstanding loan. Please repay it first.", s)
    else
      addLoan s memberId amount accountId date interestRate =
        (none,
          { s with
            loans := s.loans ++ [⟨s.nextId, memberId, amount, interestRate, date, date + 30⟩],
            transactions := s.transactions ++
              [⟨s.nextId + 1, date, some memberId, accountId, FundType.PRINCIPAL,
                TransactionType.LOAN_GIVEN, -amount, none, "Loan given to member"⟩],
            nextId := s.nextId + 2 }) := by
  split_ifs with h1 h2
  · unfold addLoan
    rw [if_pos h1]
  · unfold addLoan
    rw [if_neg h1, if_pos h2]
  · unfold addLoan
    rw [if_neg h1, if_neg h2]

/-- Balance of one fund pool of an account, selected by a fund tag. -/
def fundBalance (s : Store) (accountId : Nat) (fundType : FundType) : ℚ :=
  match fundType with
  | FundType.PRINCIPAL => (getAccountBalance s accountId).principal
  | FundType.INTEREST => (getAccountBalance s accountId).interest

/-- C7: a transfer appends exactly two TRANSFER entries, of amounts −amount on
the source account and +amount on the destination account (summing to zero),
with the same fund pool tag and date; consequently the two accounts' balances
in that fund pool change by −amount and +amount respectively. -/
theorem addTransfer_spec (s : Store) (fromAccountId toAccountId : Nat)
    (amount : ℚ) (fundType : FundType) (date : Nat) (notes : String)
    (hne : fromAccountId ≠ toAccountId) (hd : date ≤ s.workingDate) :
    (addTransfer s fromAccountId toAccountId amount fundType date notes).transactions =
      s.transactions ++
        [⟨s.nextId, date, none, fromAccountId, fundType, TransactionType.TRANSFER,
          -amount, none, "Transfer to " ++ accountNameOf s toAccountId ++ ": " ++ notes⟩,
         ⟨s.nextId + 1, date, none, toAccountId, fundType, TransactionType.TRANSFER,
          amount, none, "Transfer from " ++ accountNameOf s fromAccountId ++ ": " ++ notes⟩] ∧
    -amount + amount = 0 ∧
    fundBalance (addTransfer s fromAccountId toAccountId amount fundType date notes)
        fromAccountId fundType = fundBalance s fromAccountId fundType - amount ∧
    fundBalance (addTransfer s fromAccountId toAccountId amount fundType date notes)
        toAccountId fundType = fundBalance s toAccountId fundType + amount := by
  refine ⟨rfl, by ring, ?_, ?_⟩ <;>
  · cases fundType <;>
      simp [fundBalance, getAccountBalance, addTransfer, isBeforeOrOnWorkingDate,
        List.filter_append, hd, hne, Ne.symm hne] <;>
      ring

/-- C8 counterexample to the claim as stated: on a store with no loans, a
repayment against a missing loan applies no state change but also returns no
failure message at all (the source function returns void), contradicting the
claim that every entity-not-found case returns a typed failure. -/
theorem addRepayment_missing_loan_silent :
    (Store.mk [] [] [] [] 10 0).loans.find? (fun l => decide (l.id = 1)) = none ∧
    addRepayment (Store.mk [] [] [] [] 10 0) 1 50 1 5 "" =
      (none, Store.mk [] [] [] [] 10 0) :=
  ⟨rfl, rfl⟩

/-- C8 amended: when the referenced entity is missing, no state change is
applied; the contribution allocator additionally returns the typed failure
message, while the direct repayment returns no failure value (void source). -/
theorem notFound_no_state_change (s : Store) (memberId : Nat) (amount : ℚ)
    (accountId date : Nat) (notes : String) (loanId : Nat) (amount2 : ℚ)
    (accountId2 date2 : Nat) (notes2 : String)
    (hm : s.members.find? (fun m => decide (m.id = memberId)) = none)
    (hl : s.loans.find? (fun l => decide (l.id = loanId)) = none) :
    addContribution s memberId amount accountId date notes =
      (some "Member not found", s) ∧
    addRepayment s loanId amount2 accountId2 date2 notes2 = (none, s) := by
  constructor
  · unfold addContribution
    rw [hm]
  · unfold addRepayment
    rw [hl]

/-- C8 witness: both lookups fail on an empty store; the allocator reports
the typed failure and the repayment silently leaves the state unchanged. -/
theorem notFound_no_state_change_witness :
    addContribution (Store.mk [] [] [] [] 10 0) 1 100 1 5 "" =
      (some "Member not found", Store.mk [] [] [] [] 10 0) ∧
    addRepayment (Store.mk [] [] [] [] 10 0) 2 50 1 5 "" =
      (none, Store.mk [] [] [] [] 10 0) :=
  notFound_no_state_change (Store.mk [] [] [] [] 10 0) 1 100 1 5 "" 2 50 1 5 "" rfl rfl

/-- Loan-registry updates do not affect the loan evaluator, which reads only
the entry log and the working date. -/
theorem getLoanDetails_loans_update (s : Store) (L : List Loan) (l : Loan) :
    getLoanDetails { s with loans := L } l = getLoanDetails s l := rfl

/-- Loan-registry updates do not affect the balance aggregator. -/
theorem getAccountBalance_loans_update (s : Store) (L : List Loan) (a : Nat) :
    getAccountBalance { s with loans := L } a = getAccountBalance s a := rfl

/-- C10: member statistics ignore a loan issued after the working date, even
one whose status is not PAID: adding such a loan to the registry leaves the
member's statistics (in particular activeLoans and totalLoanBalance)
unchanged. -/
theorem getMemberStats_excludes_future_loans (s : Store) (memberId : Nat) (l : Loan)
    (hmem : l.memberId = memberId) (hd : s.workingDate < l.date_given)
    (hst : (getLoanDetails s l).status ≠ LoanStatus.PAID) :
    getMemberStats { s with loans := l :: s.loans } memberId =
      getMemberStats s memberId := by
  unfold getMemberStats
  simp only [getLoanDetails_loans_update, getAccountBalance_loans_update,
    isBeforeOrOnWorkingDate, List.filter_cons, Nat.not_le.mpr hd]
  simp

/-- With no extra to distribute the waterfall emits nothing. -/
theorem waterfallSpec_nonpos (memberId accountId date : Nat) (extra : ℚ) (nid : Nat)
    (L : List (Loan × LoanDetails)) (h : ¬ extra > 0) :
    waterfallSpec memberId accountId date extra nid L = ([], extra, nid) := by
  cases L with
  | nil => rfl
  | cons p rest =>
    obtain ⟨loan, details⟩ := p
    simp [waterfallSpec, h]

/-- On lists of loans with positive balances the embedded repayment loop
agrees with the waterfall written after the specification's words: the inner
positivity guard of the source loop never blocks. -/
theorem repayLoop_eq_waterfall (memberId accountId date : Nat) :
    ∀ (L : List (Loan × LoanDetails)), (∀ p ∈ L, 0 < p.2.balance) →
      ∀ (remaining : ℚ) (nid : Nat),
        repayLoop memberId accountId date remaining nid L =
          waterfallSpec memberId accountId date remaining nid L := by
  intro L
  induction L with
  | nil => intro _ remaining nid; rfl
  | cons p rest ih =>
    intro hbal remaining nid
    obtain ⟨loan, details⟩ := p
    by_cases hr : remaining ≤ 0
    · simp [repayLoop, waterfallSpec, hr, not_lt.mpr hr]
    · push_neg at hr
      have hb : 0 < details.balance := hbal (loan, details) (List.mem_cons_self _ _)
      have hamt : 0 < min remaining details.balance := lt_min hr hb
      simp only [repayLoop, waterfallSpec, if_neg (not_le.mpr hr), if_pos hamt, if_pos hr]
      rw [ih (fun q hq => hbal q (List.mem_cons_of_mem _ hq))]

/-- C1: for a registered member the allocator computes the share as
min(max(0, 1000 − alreadyContributedToday), amount + carried credit), with
alreadyContributedToday summed over the member's CONTRIBUTION entries dated
exactly the given date, and the entries it appends contain exactly one
CONTRIBUTION entry — of fund pool PRINCIPAL, amount share, on the destination
account — iff the share is positive. -/
theorem addContribution_share_cap (s : Store) (memberId : Nat) (amount : ℚ)
    (accountId date : Nat) (notes : String) (member : Member) (share : ℚ)
    (hm : s.members.find? (fun m => decide (m.id = memberId)) = some member)
    (hshare : share = min (max 0 (1000 - existingContributionAmountOnDate s memberId date))
      (amount + member.advance_credit)) :
    ((addContribution s memberId amount accountId date notes).2.transactions.drop
        s.transactions.length).filter
      (fun t => decide (t.transaction_type = TransactionType.CONTRIBUTION)) =
      (if share > 0 then
        [⟨s.nextId, date, some memberId, accountId, FundType.PRINCIPAL,
          TransactionType.CONTRIBUTION, share, none,
          if notes = "" then "Daily Share" else notes⟩]
      else []) := by
  rw [addContribution_eq s memberId amount accountId date notes member share
    ((amount + member.advance_credit) - share)
    (if share > 0 then s.nextId + 1 else s.nextId) hm hshare rfl rfl]
  dsimp only
  rw [List.append_assoc, List.drop_left, List.filter_append]
  have hA : ((if (amount + member.advance_credit) - share > 0 then
      repayLoop memberId accountId date ((amount + member.advance_credit) - share)
        (if share > 0 then s.nextId + 1 else s.nextId) (unpaidLoansSorted s memberId)
    else ([], 0, if share > 0 then s.nextId + 1 else s.nextId)).1.filter
      (fun t => decide (t.transaction_type = TransactionType.CONTRIBUTION))) = [] := by
    split
    · refine List.filter_eq_nil_iff.mpr fun t ht => ?_
      obtain ⟨q, hq, _, _, hty⟩ := repayLoop_mem memberId accountId date _ _ _ t ht
      simp [hty]
    · rfl
  rw [hA, List.append_nil]
  by_cases hs : share > 0
  · rw [if_pos hs]
    simp
  · rw [if_neg hs]
    rfl

/-- C2: for a registered member the appended entries are the CONTRIBUTION
entry (when the share is positive) followed exactly by the repayments of the
specification's waterfall over the member's non-PAID loans sorted by issue
date — one LOAN_REPAYMENT/PRINCIPAL entry of min(extra, balance) per loan
while extra remains — and the member's carried credit is replaced by the
waterfall's leftover. -/
theorem addContribution_waterfall (s : Store) (memberId : Nat) (amount : ℚ)
    (accountId date : Nat) (notes : String) (member : Member)
    (share extra : ℚ) (nid1 : Nat) (result : List Transaction × ℚ × Nat)
    (hm : s.members.find? (fun m => decide (m.id = memberId)) = some member)
    (hshare : share = min (max 0 (1000 - existingContributionAmountOnDate s memberId date))
      (amount + member.advance_credit))
    (hextra : extra = (amount + member.advance_credit) - share)
    (hnid1 : nid1 = if share > 0 then s.nextId + 1 else s.nextId)
    (hres : result = waterfallSpec memberId accountId date extra nid1
      (unpaidLoansSorted s memberId)) :
    (addContribution s memberId amount accountId date notes).2.transactions =
      s.transactions ++
        (if share > 0 then
          [⟨s.nextId, date, some memberId, accountId, FundType.PRINCIPAL,
            TransactionType.CONTRIBUTION, share, none,
            if notes = "" then "Daily Share" else notes⟩]
        else []) ++ result.1 ∧
    (addContribution s memberId amount accountId date notes).2.members =
      s.members.map fun m =>
        if m.id = memberId then { m with advance_credit := result.2.1 } else m := by
  have halloc : (if extra > 0 then
      repayLoop memberId accountId date extra nid1 (unpaidLoansSorted s memberId)
    else ([], 0, nid1)) = result := by
    rw [hres]
    by_cases hx : extra > 0
    · rw [if_pos hx,
        repayLoop_eq_waterfall memberId accountId date (unpaidLoansSorted s memberId)
          (unpaid_pipeline_balance_pos s memberId) extra nid1]
    · have h0 : extra = 0 := by
        refine le_antisymm (not_lt.mp hx) ?_
        rw [hextra, hshare]
        exact sub_nonneg.mpr (min_le_right _ _)
      rw [if_neg hx, waterfallSpec_nonpos memberId accountId date extra nid1 _ hx, h0]
  rw [addContribution_eq s memberId amount accountId date notes member share extra nid1
    hm hshare hextra hnid1]
  rw [halloc]
  exact ⟨rfl, rfl⟩

/-- C4 amended: every LOAN_REPAYMENT entry appended by the contribution
allocator has amount at most the referenced loan's outstanding balance as
evaluated in the pre-call state (loan ids assumed unambiguous, as uuids are). -/
theorem addContribution_repayment_bounded (s : Store) (memberId : Nat) (amount : ℚ)
    (accountId date : Nat) (notes : String) (t : Transaction) (loan : Loan)
    (hids : ∀ l1 ∈ s.loans, ∀ l2 ∈ s.loans, l1.id = l2.id → l1 = l2)
    (ht : t ∈ (addContribution s memberId amount accountId date notes).2.transactions.drop
      s.transactions.length)
    (hty : t.transaction_type = TransactionType.LOAN_REPAYMENT)
    (hloan : loan ∈ s.loans) (href : t.related_loan_id = some loan.id) :
    t.amount ≤ (getLoanDetails s loan).balance := by
  cases hfind : s.members.find? (fun m => decide (m.id = memberId)) with
  | none =>
    unfold addContribution at ht
    rw [hfind] at ht
    simp at ht
  | some member =>
    rw [addContribution_eq s memberId amount accountId date notes member _ _ _
      hfind rfl rfl rfl] at ht
    dsimp only at ht
    rw [List.append_assoc, List.drop_left, List.mem_append] at ht
    rcases ht with hC | hA
    · exfalso
      revert hC
      split
      · intro hC
        rw [List.mem_singleton] at hC
        subst hC
        simp at hty
      · intro hC
        simp at hC
    · revert hA
      split
      · intro hA
        obtain ⟨q, hq, href2, hle, _⟩ :=
          repayLoop_mem memberId accountId date _ _ _ t hA
        obtain ⟨hq1, hq2, _⟩ := unpaid_pipeline_mem s memberId q hq
        have hid : q.1.id = loan.id := by
          rw [href2] at href
          exact Option.some.inj href
        have : q.1 = loan := hids q.1 hq1 loan hloan hid
        rw [hq2, this] at hle
        exact hle
      · intro hA
        simp at hA

/-- Sample store of the C1 witness: one member with no carried credit, no
entries, no loans. -/
def wStore1 : Store := ⟨[⟨1, "A", true, 0⟩], [], [], [], 5, 0⟩

/-- C1 witness: the claim's scenario — carried credit 0, no prior
contribution on the day, contribution of 1500 — yields share 1000 and exactly
one CONTRIBUTION entry of 1000. -/
theorem addContribution_share_cap_witness :
    wStore1.members.find? (fun m => decide (m.id = 1)) = some (Member.mk 1 "A" true 0) ∧
    (1000 : ℚ) = min (max 0 (1000 - existingContributionAmountOnDate wStore1 1 7))
      (1500 + (Member.mk 1 "A" true 0).advance_credit) ∧
    ((addContribution wStore1 1 1500 1 7 "").2.transactions.drop
        wStore1.transactions.length).filter
      (fun t => decide (t.transaction_type = TransactionType.CONTRIBUTION)) =
      (if (1000 : ℚ) > 0 then
        [⟨wStore1.nextId, 7, some 1, 1, FundType.PRINCIPAL,
          TransactionType.CONTRIBUTION, 1000, none,
          if "" = "" then "Daily Share" else ""⟩]
      else []) := by
  refine ⟨rfl, ?_, ?_⟩
  · norm_num [existingContributionAmountOnDate, wStore1]
  · exact addContribution_share_cap wStore1 1 1500 1 7 "" (Member.mk 1 "A" true 0) 1000
      rfl (by norm_num [existingContributionAmountOnDate, wStore1])

/-- Sample store of the C2 witness: the member is already at the daily cap on
the contribution date and carries one unpaid loan of balance 100. -/
def wStore2 : Store :=
  ⟨[⟨1, "A", true, 0⟩], [],
   [⟨100, 7, some 1, 1, FundType.PRINCIPAL, TransactionType.CONTRIBUTION, 1000, none, "x"⟩],
   [⟨10, 1, 100, 0, 1, 31⟩], 5, 55⟩

/-- Repayment entry produced by the waterfall in the C2 witness. -/
def wRepay2 : Transaction :=
  ⟨55, 7, some 1, 1, FundType.PRINCIPAL, TransactionType.LOAN_REPAYMENT, 50, some 10,
   "Auto-repayment from extra contribution"⟩

/-- C2 witness: at the cap, a 50 contribution flows entirely into one
auto-repayment of the unpaid loan and the carried credit is replaced by 0. -/
theorem addContribution_waterfall_witness :
    wStore2.members.find? (fun m => decide (m.id = 1)) = some (Member.mk 1 "A" true 0) ∧
    (0 : ℚ) = min (max 0 (1000 - existingContributionAmountOnDate wStore2 1 7))
      (50 + (Member.mk 1 "A" true 0).advance_credit) ∧
    (50 : ℚ) = (50 + (Member.mk 1 "A" true 0).advance_credit) - 0 ∧
    (55 : Nat) = (if (0 : ℚ) > 0 then wStore2.nextId + 1 else wStore2.nextId) ∧
    ([wRepay2], (0 : ℚ), 56) = waterfallSpec 1 1 7 50 55 (unpaidLoansSorted wStore2 1) ∧
    ((addContribution wStore2 1 50 1 7 "x").2.transactions =
        wStore2.transactions ++
          (if (0 : ℚ) > 0 then
            [⟨wStore2.nextId, 7, some 1, 1, FundType.PRINCIPAL,
              TransactionType.CONTRIBUTION, 0, none,
              if "x" = "" then "Daily Share" else "x"⟩]
          else []) ++ ([wRepay2], (0 : ℚ), 56).1 ∧
      (addContribution wStore2 1 50 1 7 "x").2.members =
        wStore2.members.map fun m =>
          if m.id = 1 then { m with advance_credit := ([wRepay2], (0 : ℚ), 56).2.1 }
          else m) := by
  have hsh : (0 : ℚ) = min (max 0 (1000 - existingContributionAmountOnDate wStore2 1 7))
      (50 + (Member.mk 1 "A" true 0).advance_credit) := by
    norm_num [existingContributionAmountOnDate, wStore2]
  have hres : ([wRepay2], (0 : ℚ), 56) = waterfallSpec 1 1 7 50 55 (unpaidLoansSorted wStore2 1) := by
    norm_num [waterfallSpec, unpaidLoansSorted, getLoanDetails, wStore2, wRepay2,
      List.filter, List.mergeSort, min_def, isBeforeOrOnWorkingDate,
      show LoanStatus.UNPAID ≠ LoanStatus.PAID from by decide]
  exact ⟨rfl, hsh, by norm_num, by norm_num [wStore2],
    hres,
    addContribution_waterfall wStore2 1 50 1 7 "x" (Member.mk 1 "A" true 0)
      0 50 55 ([wRepay2], 0, 56) rfl hsh (by norm_num) (by norm_num [wStore2]) hres⟩

/-- Store of the C4 counterexample: one loan of balance 100 and an empty
entry log. -/
def cStore4 : Store :=
  ⟨[⟨1, "A", true, 0⟩], [], [], [⟨10, 1, 100, 0, 1, 31⟩], 5, 20⟩

/-- C4 counterexample to the claim as stated: the direct repayment operation
appends a LOAN_REPAYMENT entry of 500 although the referenced loan's
outstanding balance at that moment is only 100 — no mutation-wide invariant
bounds repayment amounts. -/
theorem addRepayment_overpay_cex :
    (getLoanDetails cStore4 (Loan.mk 10 1 100 0 1 31)).balance = 100 ∧
    (addRepayment cStore4 10 500 1 5 "").2.transactions =
      cStore4.transactions ++
        [⟨20, 5, some 1, 1, FundType.PRINCIPAL, TransactionType.LOAN_REPAYMENT,
          500, some 10, "Direct repayment"⟩] ∧
    ¬ ((500 : ℚ) ≤ (getLoanDetails cStore4 (Loan.mk 10 1 100 0 1 31)).balance) := by
  refine ⟨?_, ?_, ?_⟩
  · norm_num [getLoanDetails, cStore4]
  · norm_num [addRepayment, cStore4]
  · norm_num [getLoanDetails, cStore4]

/-- Store of the C4 witness: member at the daily cap with one unpaid loan of
balance 100, so a 50 contribution produces one auto-repayment entry. -/
def wStore4 : Store :=
  ⟨[⟨1, "A", true, 0⟩], [],
   [⟨100, 7, some 1, 1, FundType.PRINCIPAL, TransactionType.CONTRIBUTION, 1000, none, "x"⟩],
   [⟨10, 1, 100, 0, 1, 31⟩], 5, 20⟩

/-- Auto-repayment entry appended by the allocator in the C4 witness. -/
def wEntry4 : Transaction :=
  ⟨20, 7, some 1, 1, FundType.PRINCIPAL, TransactionType.LOAN_REPAYMENT, 50, some 10,
   "Auto-repayment from extra contribution"⟩

/-- C4 witness: the allocator's appended repayment of 50 is bounded by the
referenced loan's pre-call balance of 100. -/
theorem addContribution_repayment_bounded_witness :
    (∀ l1 ∈ wStore4.loans, ∀ l2 ∈ wStore4.loans, l1.id = l2.id → l1 = l2) ∧
    wEntry4 ∈ (addContribution wStore4 1 50 1 7 "x").2.transactions.drop
      wStore4.transactions.length ∧
    wEntry4.transaction_type = TransactionType.LOAN_REPAYMENT ∧
    Loan.mk 10 1 100 0 1 31 ∈ wStore4.loans ∧
    wEntry4.related_loan_id = some (Loan.mk 10 1 100 0 1 31).id ∧
    wEntry4.amount ≤ (getLoanDetails wStore4 (Loan.mk 10 1 100 0 1 31)).balance := by
  have hids : ∀ l1 ∈ wStore4.loans, ∀ l2 ∈ wStore4.loans, l1.id = l2.id → l1 = l2 := by
    intro l1 h1 l2 h2 _
    simp only [wStore4, List.mem_singleton] at h1 h2
    rw [h1, h2]
  have hmem : wEntry4 ∈ (addContribution wStore4 1 50 1 7 "x").2.transactions.drop
      wStore4.transactions.length := by
    rw [addContribution_eq wStore4 1 50 1 7 "x" (Member.mk 1 "A" true 0) 0 50 20 rfl
      (by norm_num [existingContributionAmountOnDate, wStore4]) (by norm_num)
      (by norm_num [wStore4])]
    norm_num [wStore4, wEntry4, repayLoop, unpaidLoansSorted, getLoanDetails,
      List.filter, List.mergeSort, min_def, isBeforeOrOnWorkingDate,
      show LoanStatus.UNPAID ≠ LoanStatus.PAID from by decide]
  refine ⟨hids, hmem, rfl, by simp [wStore4], rfl, ?_⟩
  exact addContribution_repayment_bounded wStore4 1 50 1 7 "x" wEntry4
    (Loan.mk 10 1 100 0 1 31) hids hmem rfl (by simp [wStore4]) rfl

/-- Empty store of the C7 witness. -/
def wStore7 : Store := ⟨[], [], [], [], 5, 0⟩

/-- C7 witness: a 200 PRINCIPAL transfer between accounts 1 and 2 appends the
paired entries and moves the principal balances by ∓200. -/
theorem addTransfer_spec_witness :
    (1 : Nat) ≠ 2 ∧ (3 : Nat) ≤ wStore7.workingDate ∧
    ((addTransfer wStore7 1 2 200 FundType.PRINCIPAL 3 "n").transactions =
        wStore7.transactions ++
          [⟨wStore7.nextId, 3, none, 1, FundType.PRINCIPAL, TransactionType.TRANSFER,
            -200, none, "Transfer to " ++ accountNameOf wStore7 2 ++ ": " ++ "n"⟩,
           ⟨wStore7.nextId + 1, 3, none, 2, FundType.PRINCIPAL, TransactionType.TRANSFER,
            200, none, "Transfer from " ++ accountNameOf wStore7 1 ++ ": " ++ "n"⟩] ∧
      -(200 : ℚ) + 200 = 0 ∧
      fundBalance (addTransfer wStore7 1 2 200 FundType.PRINCIPAL 3 "n") 1
          FundType.PRINCIPAL = fundBalance wStore7 1 FundType.PRINCIPAL - 200 ∧
      fundBalance (addTransfer wStore7 1 2 200 FundType.PRINCIPAL 3 "n") 2
          FundType.PRINCIPAL = fundBalance wStore7 2 FundType.PRINCIPAL + 200) :=
  ⟨by decide, by decide,
    addTransfer_spec wStore7 1 2 200 FundType.PRINCIPAL 3 "n" (by decide) (by decide)⟩

/-- Store and future loan of the C10 witness. -/
def wStore10 : Store := ⟨[⟨1, "A", true, 0⟩], [], [], [], 5, 0⟩

/-- Loan issued after the working date in the C10 witness. -/
def wLoan10 : Loan := ⟨7, 1, 100, 0, 9, 39⟩

/-- C10 witness: a not-PAID loan issued on day 9 is invisible to member
statistics computed at working date 5. -/
theorem getMemberStats_excludes_future_loans_witness :
    wLoan10.memberId = 1 ∧ wStore10.workingDate < wLoan10.date_given ∧
    (getLoanDetails wStore10 wLoan10).status ≠ LoanStatus.PAID ∧
    getMemberStats { wStore10 with loans := wLoan10 :: wStore10.loans } 1 =
      getMemberStats wStore10 1 := by
  refine ⟨rfl, by decide, ?_, ?_⟩
  · norm_num [getLoanDetails, wStore10, wLoan10]
    decide
  · refine getMemberStats_excludes_future_loans wStore10 1 wLoan10 rfl (by decide) ?_
    norm_num [getLoanDetails, wStore10, wLoan10]
    decide

end Ledger
